import Mathlib

/-!
Verification of the plugin lifecycle and registration core of
`ncatbot/plugin/base_plugin.py` (class `BasePlugin`).

The embedding translates the source file's control flow directly:
`__init__`, `__onload__`, `__unload__`, `_register_func`,
`register_user_func`, `register_admin_func`, `register_default_func` and
`register_config` become Lean functions over an explicit plugin state and
an explicit file-system state.  Collaborators that the source file imports
but whose code is not part of the excerpt (`UniversalLoader`,
`EventHandlerMixin.unregister_handlers`, `visualize_tree`) are modelled
from the specification and are marked as such in their doc comments.

Python exceptions become values of `PyError`; an operation that can raise
returns `Option PyError × PluginState` (the state component is the state
after the call, unchanged when an exception was raised) or
`Except PyError _` when a raised exception aborts the whole operation.
-/

/-- The in-memory keyed data tree managed by the persistence loader.
An association structure: `nil` is the empty tree, `entry k v rest`
binds key `k` to subtree `v`, and `leaf s` is a terminal value. -/
inductive DataTree
  | leaf (s : String)
  | nil
  | entry (key : String) (value : DataTree) (rest : DataTree)
deriving DecidableEq, Repr

/-- Error kinds of the persistence engine (`ncatbot.utils.io`):
`FileTypeUnknownError`, `LoadError`, `SaveError`, `FileNotFoundError`. -/
inductive PersistErr
  | fileTypeUnknown
  | loadError
  | saveError
  | fileNotFound
deriving DecidableEq, Repr

/-- Content of the persisted data file: a well-formed serialization of a
tree, the empty string (written by the truncation step of recovery),
or unparseable bytes. -/
inductive FileContent
  | good (t : DataTree)
  | emptyText
  | malformed
deriving DecidableEq, Repr

/-- The slice of the file system the plugin touches: the working
directory (`self._work_path`) and the data file (`self._data_path`).
`dataFile = none` means the data file is absent. -/
structure FS where
  workPathExists : Bool
  workPathIsDir : Bool
  dataFile : Option FileContent
deriving DecidableEq, Repr

/-- Modelled from the spec: the serialization engine recognizes a fixed
set of save formats ("saveFormat (enum, e.g. json-like, default json)");
an unrecognized format makes both load and save raise
`FileTypeUnknownError` ("raising distinguished error kinds for
unknown-format, load failure, save failure, missing file"). -/
def supportedFormats : List String := ["json", "yaml", "toml", "pickle"]

def knownFormat (fmt : String) : Bool := supportedFormats.contains fmt

/-- Modelled from the spec: `UniversalLoader.load` reads the persisted
store at the data path into an in-memory keyed tree, raising
`FileTypeUnknownError` for an unrecognized format, `FileNotFoundError`
for an absent file and `LoadError` for malformed data; on failure the
in-memory tree is left unchanged (the caller observes "data remains
whatever it was in memory"). -/
def ULload (fmt : String) (file : Option FileContent) : Except PersistErr DataTree :=
  if knownFormat fmt then
    match file with
    | none => .error .fileNotFound
    | some .malformed => .error .loadError
    | some .emptyText => .error .loadError
    | some (.good t) => .ok t
  else .error .fileTypeUnknown

/-- Modelled from the spec: `UniversalLoader.save` serializes the
in-memory tree to the data path, raising `FileTypeUnknownError` for an
unrecognized format.  On success it yields the file content written. -/
def ULsave (fmt : String) (tree : DataTree) : Except PersistErr FileContent :=
  if knownFormat fmt then .ok (.good tree)
  else .error .fileTypeUnknown

/-- The `data` attribute of a `UniversalLoader` instance: normally the
in-memory tree; `selfRef` marks the degenerate assignment
`self.data.data = self.data` performed by `__onload__`, where the
attribute holds the loader object itself. -/
inductive ULInner
  | tree (t : DataTree)
  | selfRef
deriving DecidableEq, Repr

/-- What the plugin's `data` field can hold at `__onload__` time: a
`UniversalLoader` (the normal case) or a plain `dict`/`list` left there
by earlier code (the `isinstance(self.data, (dict, list))` branch). -/
inductive DataSlot
  | loader (inner : ULInner)
  | plainDict (d : DataTree)
  | plainList (l : DataTree)
deriving DecidableEq, Repr

/-- Permission group of a registered Func (`PermissionGroup.USER.value`
or `PermissionGroup.ADMIN.value` in the source). -/
inductive PermissionGroup
  | user
  | admin
deriving DecidableEq, Repr

/-- A Func registry entry, mirroring
`Func(name, self.name, handler, filter, raw_message_filter, permission,
permission_raise)`.  Handlers and filter callables are opaque tokens. -/
structure Func where
  name : String
  plugin : String
  handler : Nat
  filter : Option Nat
  raw_message_filter : Option String
  permission : PermissionGroup
  permission_raise : Bool
deriving DecidableEq, Repr

/-- A Conf registry entry, mirroring `Conf(self, key, rptr, default)`;
the owning plugin is recorded by name, the converter as an opaque
token. -/
structure Conf where
  plugin : String
  key : String
  rptr : Option Nat
  default : DataTree
deriving DecidableEq, Repr

/-- Python exceptions raised by `BasePlugin` methods, one constructor
per raise site. -/
inductive PyError
  | missingName
  | missingVersion
  | workspaceNotDir
  | duplicateName (name : String)
  | needFilter
  | runtimeSave
  | persist (e : PersistErr)
  | typeError
deriving DecidableEq, Repr

/-- The plugin instance state: identity fields set at construction, the
first-load flag, the debug flag, the data slot, and the Func/Conf
tables. -/
structure PluginState where
  name : String
  version : String
  save_type : String
  dependencies : List (String × String)
  debug : Bool
  first_load : Bool
  data : DataSlot
  funcs : List Func
  configs : List Conf
deriving DecidableEq, Repr

/-- Truthiness of an optional string attribute, as tested by
`not getattr(self, "name", None)`: absent (`None`) and the empty string
are falsy. -/
def strFalsy : Option String → Bool
  | none => true
  | some s => s.isEmpty

/-- Embeds `BasePlugin.__init__`: checks `name`/`version`, defaults
`dependencies`, computes the working/data paths, creates the working
directory if absent, computes `first_load`, checks the working directory
is a directory, and installs a fresh `UniversalLoader` (whose in-memory
tree starts empty). -/
def construct (name version : Option String) (save_type : String)
    (deps : Option (List (String × String))) (debug : Bool) (fs : FS) :
    Except PyError (PluginState × FS) :=
  if strFalsy name then .error .missingName
  else if strFalsy version then .error .missingVersion
  else
    let step :=
      if fs.workPathExists = false then
        ({ fs with workPathExists := true, workPathIsDir := true }, true)
      else if fs.dataFile.isNone then (fs, true)
      else (fs, false)
    let fs1 := step.1
    if fs1.workPathExists && fs1.workPathIsDir then
      .ok ({ name := (name.getD ""), version := (version.getD ""),
             save_type := save_type, dependencies := deps.getD [],
             debug := debug, first_load := step.2,
             data := .loader (.tree .nil), funcs := [], configs := [] }, fs1)
    else .error .workspaceNotDir

/-- Modelled from the spec: `unregister_handlers` lives in
`EventHandlerMixin` (`ncatbot.plugin.plugin_mixins`), outside the
excerpt; per §4.3, `unregisterAll` "removes every Func entry owned by
this plugin from both the local table and the external event bus's
dispatch index; safe to call multiple times". -/
def unregister_handlers (s : PluginState) : PluginState :=
  { s with funcs := [] }

/-- Modelled from the spec: `visualize_tree`
(`ncatbot.utils.visualize_data`) renders the in-memory data tree to a
human-readable tree view, one line per node. -/
def visualize_tree : DataTree → List String
  | .leaf s => ["|-- " ++ s]
  | .nil => []
  | .entry k v rest =>
      ("|-- " ++ k) :: (visualize_tree v).map (fun l => "    " ++ l)
        ++ visualize_tree rest

/-- Observable events of one `__unload__` run, in order.  The hook
events record the Func table visible to the hook when it runs (the
spec's "instrumented handler that checks Func registry emptiness inside
the close hook"). -/
inductive UEvent
  | unregisterAll
  | syncCloseHook (funcs : List Func)
  | asyncCloseHook (funcs : List Func)
  | savePersist
  | debugSkip (rendered : List String)
deriving DecidableEq, Repr

/-- Embeds `BasePlugin.__unload__`: unregisters handlers, runs the synchronous
close hook (`_close_`, a no-op in the base class) off-thread, awaits the
asynchronous close hook (`on_close`, a no-op), then either skips the
save and renders the tree (debug mode) or saves; a persistence failure
in the save is re-raised as `RuntimeError`.  Data slots other than a
loader holding a tree make the Python body fail on the
`self.data.data` / `self.data.save()` access; those degenerate states
are mapped to `typeError`. -/
def unload (s : PluginState) (fs : FS) :
    Except PyError (PluginState × FS) × List UEvent :=
  let s1 := unregister_handlers s
  let evs := [UEvent.unregisterAll, UEvent.syncCloseHook s1.funcs,
              UEvent.asyncCloseHook s1.funcs]
  if s1.debug then
    match s1.data with
    | .loader (.tree t) =>
        (.ok (s1, fs), evs ++ [UEvent.debugSkip (visualize_tree t)])
    | _ => (.error .typeError, evs)
  else
    match s1.data with
    | .loader (.tree t) =>
        match ULsave s1.save_type t with
        | .ok c => (.ok (s1, { fs with dataFile := some c }),
                    evs ++ [UEvent.savePersist])
        | .error _ => (.error .runtimeSave, evs ++ [UEvent.savePersist])
    | _ => (.error .typeError, evs)

/-- The data slot `__onload__` proceeds with: a plain `dict`/`list` is
replaced by a fresh loader whose `data` attribute is then assigned the
loader object itself (`self.data = UniversalLoader(...)` followed by
`self.data.data = self.data`, where `self.data` already names the new
loader); a loader slot is kept as is. -/
def onload_inner (s : PluginState) : ULInner :=
  match s.data with
  | .plainDict _ => .selfRef
  | .plainList _ => .selfRef
  | .loader i => i

/-- The plugin state from which `__onload__`'s file load proceeds. -/
def onload_pre (s : PluginState) : PluginState :=
  { s with data := .loader (onload_inner s) }

/-- Embeds `BasePlugin.__onload__`: fixes a plain `dict`/`list` data slot, then
tries `self.data.load()`.  On `FileTypeUnknownError` / `LoadError` /
`FileNotFoundError`: in debug mode the failure is swallowed; otherwise
the data file is truncated to the empty string, `self.data.save()`
re-writes the in-memory tree and `self.data.load()` re-reads it — an
exception escaping this recovery block propagates out of `__onload__`.
The init hooks (`_init_`, `on_load`) are base-class no-ops.  Saving the
self-referential loader of the degenerate slot is not serializable and
is mapped to `typeError`. -/
def onload (s0 : PluginState) (fs : FS) :
    Except PyError (PluginState × FS) :=
  let inner := onload_inner s0
  let s := onload_pre s0
  match ULload s.save_type fs.dataFile with
  | .ok t => .ok ({ s with data := .loader (.tree t) }, fs)
  | .error _ =>
    if s.debug then .ok (s, fs)
    else
      let fs1 := { fs with dataFile := some FileContent.emptyText }
      match inner with
      | .tree t =>
        match ULsave s.save_type t with
        | .ok c =>
          let fs2 := { fs1 with dataFile := some c }
          match ULload s.save_type fs2.dataFile with
          | .ok t2 => .ok ({ s with data := .loader (.tree t2) }, fs2)
          | .error e2 => .error (.persist e2)
        | .error e2 => .error (.persist e2)
      | .selfRef => .error .typeError

/-- Embeds `BasePlugin._register_func`: appends a new Func entry when the name
is fresh among `self.funcs`, otherwise raises (duplicate name).  On an
exception the state is returned unchanged. -/
def _register_func (name : String) (handler : Nat) (filter : Option Nat)
    (raw_message_filter : Option String) (permission : PermissionGroup)
    (permission_raise : Bool) (s : PluginState) :
    Option PyError × PluginState :=
  if s.funcs.all (fun var => name ≠ var.name) then
    (none, { s with funcs := s.funcs ++
      [{ name := name, plugin := s.name, handler := handler,
         filter := filter, raw_message_filter := raw_message_filter,
         permission := permission, permission_raise := permission_raise }] })
  else (some (.duplicateName name), s)

/-- Embeds `BasePlugin.register_user_func`: requires at least one of
`filter`/`raw_message_filter`, then registers with permission USER. -/
def register_user_func (name : String) (handler : Nat) (filter : Option Nat)
    (raw_message_filter : Option String) (permission_raise : Bool)
    (s : PluginState) : Option PyError × PluginState :=
  if filter.isNone && raw_message_filter.isNone then (some .needFilter, s)
  else _register_func name handler filter raw_message_filter .user
        permission_raise s

/-- Embeds `BasePlugin.register_admin_func`: same shape, permission ADMIN. -/
def register_admin_func (name : String) (handler : Nat) (filter : Option Nat)
    (raw_message_filter : Option String) (permission_raise : Bool)
    (s : PluginState) : Option PyError × PluginState :=
  if filter.isNone && raw_message_filter.isNone then (some .needFilter, s)
  else _register_func name handler filter raw_message_filter .admin
        permission_raise s

/-- Embeds `BasePlugin.register_default_func`: registers under the reserved
name "default" with no filters and no filter requirement. -/
def register_default_func (handler : Nat) (permission : PermissionGroup)
    (s : PluginState) : Option PyError × PluginState :=
  _register_func "default" handler none none permission false s

/-- Embeds `BasePlugin.register_config`: unconditionally appends a Conf entry;
no raise path exists in the source. -/
def register_config (key : String) (default : DataTree) (rptr : Option Nat)
    (s : PluginState) : PluginState :=
  { s with configs := s.configs ++
      [{ plugin := s.name, key := key, rptr := rptr, default := default }] }

/-! ### Sample states used by witnesses and counterexamples -/

/-- A file system where the working directory and data file both exist. -/
def fsBoth : FS :=
  { workPathExists := true, workPathIsDir := true, dataFile := some (.good .nil) }

/-- A file system where nothing exists yet. -/
def fsFresh : FS :=
  { workPathExists := false, workPathIsDir := false, dataFile := none }

/-- Working directory present, data file absent. -/
def fsAbsentD : FS :=
  { workPathExists := true, workPathIsDir := true, dataFile := none }

/-- Working directory present, data file malformed. -/
def fsBad : FS :=
  { workPathExists := true, workPathIsDir := true, dataFile := some .malformed }

/-- A plugin state as produced by a successful construction. -/
def s0 : PluginState :=
  { name := "Echo", version := "1.0", save_type := "json", dependencies := [],
    debug := false, first_load := false, data := .loader (.tree .nil),
    funcs := [], configs := [] }

/-- Like `s0` but in debug mode. -/
def s0dbg : PluginState := { s0 with debug := true }

/-- A registered Func named "a". -/
def func_a : Func :=
  { name := "a", plugin := "Echo", handler := 0, filter := some 0,
    raw_message_filter := none, permission := .user, permission_raise := false }

/-- State `s0` with one Func "a" already registered. -/
def s1f : PluginState := { s0 with funcs := [func_a] }

/-! ### Helper lemmas -/

/-- Lemma: `_register_func` on a name that is not fresh raises the
duplicate-name error and returns the state unchanged. -/
theorem regfunc_dup (s : PluginState) (nm : String) (hd : Nat)
    (fl : Option Nat) (rmf : Option String) (p : PermissionGroup) (pr : Bool)
    (hdup : s.funcs.all (fun var => nm ≠ var.name) = false) :
    _register_func nm hd fl rmf p pr s = (some (PyError.duplicateName nm), s) := by
  unfold _register_func
  simp only [hdup]
  rfl

/-- Lemma: `_register_func` on a fresh name appends exactly one entry. -/
theorem regfunc_fresh (s : PluginState) (nm : String) (hd : Nat)
    (fl : Option Nat) (rmf : Option String) (p : PermissionGroup) (pr : Bool)
    (hfresh : s.funcs.all (fun var => nm ≠ var.name) = true) :
    _register_func nm hd fl rmf p pr s
      = (none, { s with funcs := s.funcs ++
          [{ name := nm, plugin := s.name, handler := hd,
             filter := fl, raw_message_filter := rmf, permission := p,
             permission_raise := pr }] }) := by
  unfold _register_func
  simp only [hfresh]
  rfl

/-! ### Claim theorems -/

/-- C1: on every invocation of `unload`, the registered Func entries are
unregistered first, then the synchronous close hook runs, then the
asynchronous close hook runs, and only then does the persistence save
(or its debug-mode skip) happen; the Func registry is already empty when
either close hook executes. -/
theorem C1_unload_order (s : PluginState) (fs : FS) :
    (unload s fs).2.take 3 =
      [UEvent.unregisterAll, UEvent.syncCloseHook [], UEvent.asyncCloseHook []]
    ∧ ∀ e ∈ (unload s fs).2.drop 3,
        e = UEvent.savePersist ∨ ∃ r, e = UEvent.debugSkip r := by
  unfold unload unregister_handlers
  dsimp only
  split
  · split <;> simp
  · split
    · split <;> simp
    · simp

/-- C3: a registration under a name already present in the plugin's Func
table fails with the duplicate-name error and leaves the table unchanged
(first registration intact), through every entry point including the
reserved name "default"; a fresh name appends exactly one new entry. -/
theorem C3_duplicate_name (s : PluginState) (nm : String) (hd : Nat)
    (fl : Option Nat) (rmf : Option String) (p : PermissionGroup) (pr : Bool)
    (hdup : s.funcs.all (fun var => nm ≠ var.name) = false) :
    _register_func nm hd fl rmf p pr s = (some (PyError.duplicateName nm), s)
    ∧ ((fl.isNone && rmf.isNone) = false →
        register_user_func nm hd fl rmf pr s = (some (PyError.duplicateName nm), s)
        ∧ register_admin_func nm hd fl rmf pr s = (some (PyError.duplicateName nm), s))
    ∧ (nm = "default" →
        register_default_func hd p s = (some (PyError.duplicateName "default"), s))
    ∧ (∀ s2 : PluginState, s2.funcs.all (fun var => nm ≠ var.name) = true →
        _register_func nm hd fl rmf p pr s2
          = (none, { s2 with funcs := s2.funcs ++
              [{ name := nm, plugin := s2.name, handler := hd,
                 filter := fl, raw_message_filter := rmf, permission := p,
                 permission_raise := pr }] })) := by
  refine ⟨regfunc_dup s nm hd fl rmf p pr hdup, ?_, ?_, ?_⟩
  · intro hfl
    unfold register_user_func register_admin_func
    simp only [hfl]
    exact ⟨regfunc_dup s nm hd fl rmf .user pr hdup,
           regfunc_dup s nm hd fl rmf .admin pr hdup⟩
  · intro hnm
    subst hnm
    unfold register_default_func
    exact regfunc_dup s "default" hd none none p false hdup
  · intro s2 hfresh
    exact regfunc_fresh s2 nm hd fl rmf p pr hfresh

/-- C3 witness: with Func "a" already registered on `s1f`, re-registering
"a" fails with the duplicate-name error and leaves the state unchanged. -/
theorem C3_witness :
    _register_func "a" 1 (some 1) none PermissionGroup.user false s1f
      = (some (PyError.duplicateName "a"), s1f) :=
  (C3_duplicate_name s1f "a" 1 (some 1) none PermissionGroup.user false
    (by decide)).1

/-- C6: `register_user_func` and `register_admin_func` with both filters
unset fail with the validation error and register nothing; with at least
one filter set and a fresh name they succeed; `register_default_func`
succeeds without any filter. -/
theorem C6_filter_required (s : PluginState) (nm : String) (hd : Nat)
    (pr : Bool) (p : PermissionGroup) :
    register_user_func nm hd none none pr s = (some PyError.needFilter, s)
    ∧ register_admin_func nm hd none none pr s = (some PyError.needFilter, s)
    ∧ (∀ (fl : Option Nat) (rmf : Option String),
        (fl.isNone && rmf.isNone) = false →
        s.funcs.all (fun var => nm ≠ var.name) = true →
        (register_user_func nm hd fl rmf pr s).1 = none
        ∧ (register_admin_func nm hd fl rmf pr s).1 = none)
    ∧ (s.funcs.all (fun var => "default" ≠ var.name) = true →
        (register_default_func hd p s).1 = none) := by
  refine ⟨?_, ?_, ?_, ?_⟩
  · unfold register_user_func
    simp
  · unfold register_admin_func
    simp
  · intro fl rmf hfl hfresh
    unfold register_user_func register_admin_func
    simp only [hfl]
    rw [regfunc_fresh s nm hd fl rmf .user pr hfresh,
        regfunc_fresh s nm hd fl rmf .admin pr hfresh]
    exact ⟨rfl, rfl⟩
  · intro hfresh
    unfold register_default_func
    rw [regfunc_fresh s "default" hd none none p false hfresh]

/-- C6 witness: on `s0`, a user Func without any filter is rejected with
the validation error, and one with a filter registers successfully. -/
theorem C6_witness :
    register_user_func "f" 0 none none false s0 = (some PyError.needFilter, s0)
    ∧ (register_user_func "g" 0 (some 1) none false s0).1 = none := by
  refine ⟨(C6_filter_required s0 "f" 0 false PermissionGroup.user).1, ?_⟩
  exact ((C6_filter_required s0 "g" 0 false PermissionGroup.user).2.2.1
    (some 1) none (by decide) (by decide)).1

/-- C9: `register_config` never fails and never deduplicates: each call
appends exactly one Conf entry, so registering the same key twice yields
two identical entries, both present. -/
theorem C9_config_append (s : PluginState) (k : String) (d : DataTree)
    (r : Option Nat) :
    register_config k d r s
      = { s with configs := s.configs ++
          [{ plugin := s.name, key := k, rptr := r, default := d }] }
    ∧ (register_config k d r (register_config k d r s)).configs
      = s.configs ++
          [{ plugin := s.name, key := k, rptr := r, default := d },
           { plugin := s.name, key := k, rptr := r, default := d }] := by
  unfold register_config
  simp

/-- C5: construction with an empty or absent name fails with the
identity error for the name; with a non-empty name but empty or absent
version it fails with the identity error for the version; with both
non-empty no identity error is raised. -/
theorem C5_identity (n v : Option String) (st : String)
    (deps : Option (List (String × String))) (debug : Bool) (fs : FS) :
    (strFalsy n = true →
      construct n v st deps debug fs = Except.error PyError.missingName)
    ∧ (strFalsy n = false → strFalsy v = true →
      construct n v st deps debug fs = Except.error PyError.missingVersion)
    ∧ (strFalsy n = false → strFalsy v = false →
      construct n v st deps debug fs ≠ Except.error PyError.missingName
      ∧ construct n v st deps debug fs ≠ Except.error PyError.missingVersion) := by
  refine ⟨?_, ?_, ?_⟩
  · intro h
    unfold construct
    simp [h]
  · intro hn hv
    unfold construct
    simp [hn, hv]
  · intro hn hv
    unfold construct
    simp only [hn, hv, Bool.false_eq_true, if_false]
    constructor <;>
      · intro hcon
        split at hcon <;> (try split at hcon) <;> (try split at hcon) <;>
          simp_all

/-- C5 witness: constructing with an absent name fails with the
identity error for the name. -/
theorem C5_witness :
    construct none (some "1.0") "json" none false fsBoth
      = Except.error PyError.missingName :=
  (C5_identity none (some "1.0") "json" none false fsBoth).1 rfl

/-- C7: for every invocation of `unload` (on a plugin whose data slot
holds a loader with in-memory tree `t`), the persistence save is
attempted iff debug mode is off; in debug mode the save is skipped, the
tree is rendered to the human-readable tree view instead, and the
persisted file is left untouched. -/
theorem C7_save_iff_not_debug (s : PluginState) (fs : FS) (t : DataTree)
    (hdata : s.data = DataSlot.loader (ULInner.tree t)) :
    (UEvent.savePersist ∈ (unload s fs).2 ↔ s.debug = false)
    ∧ (s.debug = true →
        (unload s fs).1 = Except.ok (unregister_handlers s, fs)
        ∧ (unload s fs).2
          = [UEvent.unregisterAll, UEvent.syncCloseHook [],
             UEvent.asyncCloseHook [], UEvent.debugSkip (visualize_tree t)]) := by
  obtain ⟨nm, ver, stp, dep, dbg, fld, dat, fns, cfg⟩ := s
  simp only at hdata
  subst hdata
  cases dbg with
  | false =>
    constructor
    · unfold unload unregister_handlers
      dsimp only
      cases hsv : ULsave stp t <;> simp [hsv]
    · intro hcon
      exact absurd hcon (by simp)
  | true =>
    constructor
    · unfold unload unregister_handlers
      dsimp only
      simp
    · intro _
      unfold unload unregister_handlers
      dsimp only
      exact ⟨rfl, rfl⟩

/-- C7 witness: `s0dbg` is in debug mode, so unloading it skips the
save, renders the tree and leaves the file untouched. -/
theorem C7_witness :
    (UEvent.savePersist ∈ (unload s0dbg fsBoth).2 ↔ s0dbg.debug = false)
    ∧ (s0dbg.debug = true →
        (unload s0dbg fsBoth).1 = Except.ok (unregister_handlers s0dbg, fsBoth)
        ∧ (unload s0dbg fsBoth).2
          = [UEvent.unregisterAll, UEvent.syncCloseHook [],
             UEvent.asyncCloseHook [], UEvent.debugSkip (visualize_tree .nil)]) :=
  C7_save_iff_not_debug s0dbg fsBoth .nil rfl

/-- Inversion of a successful construction: the produced state is fully
determined by the constructor arguments and the prior file system. -/
theorem construct_ok_shape (n v : Option String) (st : String)
    (deps : Option (List (String × String))) (debug : Bool)
    (fs fs1 : FS) (s : PluginState)
    (h : construct n v st deps debug fs = Except.ok (s, fs1)) :
    s = { name := n.getD "", version := v.getD "", save_type := st,
          dependencies := deps.getD [], debug := debug,
          first_load :=
            (decide (fs.workPathExists = false) || decide (fs.dataFile = none)),
          data := .loader (.tree .nil), funcs := [], configs := [] } := by
  unfold construct at h
  dsimp only at h
  repeat' split at h
  all_goals first
    | exact Except.noConfusion h
    | (rw [Except.ok.injEq, Prod.mk.injEq] at h
       obtain ⟨h1, -⟩ := h
       rw [← h1]
       simp only [PluginState.mk.injEq]
       simp_all [Option.isNone_iff_eq_none])

/-- Lemma: `onload` never changes the first-load flag. -/
theorem onload_keeps_flag (s : PluginState) (fs2 fs3 : FS)
    (s2 : PluginState) (h : onload s fs2 = Except.ok (s2, fs3)) :
    s2.first_load = s.first_load := by
  unfold onload at h
  dsimp only at h
  repeat' split at h
  all_goals first
    | exact Except.noConfusion h
    | (rw [Except.ok.injEq, Prod.mk.injEq] at h
       obtain ⟨h1, -⟩ := h
       subst h1
       rfl)

/-- Lemma: `unload` never changes the first-load flag. -/
theorem unload_keeps_flag (s : PluginState) (fs2 fs3 : FS)
    (s2 : PluginState) (h : (unload s fs2).1 = Except.ok (s2, fs3)) :
    s2.first_load = s.first_load := by
  unfold unload unregister_handlers at h
  dsimp only at h
  repeat' split at h
  all_goals first
    | exact Except.noConfusion h
    | (rw [Except.ok.injEq, Prod.mk.injEq] at h
       obtain ⟨h1, -⟩ := h
       subst h1
       rfl)

/-- C4: after a successful construction, the first-load flag is true iff
the working directory or the data file was absent just before
construction, and none of the later operations changes it. -/
theorem C4_first_load (n v : Option String) (st : String)
    (deps : Option (List (String × String))) (debug : Bool)
    (fs fs1 : FS) (s : PluginState)
    (h : construct n v st deps debug fs = Except.ok (s, fs1)) :
    (s.first_load = true ↔ (fs.workPathExists = false ∨ fs.dataFile = none))
    ∧ (∀ (nm : String) (hd : Nat) (fl : Option Nat) (rmf : Option String)
         (p : PermissionGroup) (pr : Bool),
        ((_register_func nm hd fl rmf p pr s).2).first_load = s.first_load)
    ∧ (∀ (k : String) (d : DataTree) (r : Option Nat),
        (register_config k d r s).first_load = s.first_load)
    ∧ (∀ (fs2 : FS) (s2 : PluginState) (fs3 : FS),
        onload s fs2 = Except.ok (s2, fs3) → s2.first_load = s.first_load)
    ∧ (∀ (fs2 : FS) (s2 : PluginState) (fs3 : FS),
        (unload s fs2).1 = Except.ok (s2, fs3) → s2.first_load = s.first_load) := by
  refine ⟨?_, ?_, ?_, ?_, ?_⟩
  · rw [construct_ok_shape n v st deps debug fs fs1 s h]
    simp
  · intro nm hd fl rmf p pr
    unfold _register_func
    split <;> rfl
  · intro k d r
    rfl
  · intro fs2 s2 fs3 hol
    exact onload_keeps_flag s fs2 fs3 s2 hol
  · intro fs2 s2 fs3 hul
    exact unload_keeps_flag s fs2 fs3 s2 hul

/-- State produced by constructing against a fresh root: like `s0` but
with the first-load flag set. -/
def sFirst : PluginState := { s0 with first_load := true }

/-- C4 witness: constructing against a fresh root sets the first-load
flag, matching the absence of the working directory and data file. -/
theorem C4_witness :
    sFirst.first_load = true
      ↔ (fsFresh.workPathExists = false ∨ fsFresh.dataFile = none) :=
  (C4_first_load (some "Echo") (some "1.0") "json" none false fsFresh
    fsAbsentD sFirst rfl).1

/-- C8: in debug mode, a failed persisted-store read is swallowed by
`onload`: no exception propagates, no recovery write happens (the file
system is returned untouched), and the in-memory tree is unchanged. -/
theorem C8_debug_swallows (s : PluginState) (fs : FS) (t : DataTree)
    (e : PersistErr)
    (hdbg : s.debug = true)
    (hdata : s.data = DataSlot.loader (ULInner.tree t))
    (hfail : ULload s.save_type fs.dataFile = Except.error e) :
    onload s fs = Except.ok (s, fs) := by
  obtain ⟨nm, ver, stp, dep, dbg, fld, dat, fns, cfg⟩ := s
  simp only at hdata hdbg hfail
  subst hdata hdbg
  unfold onload onload_pre onload_inner
  dsimp only
  rw [hfail]
  rfl

/-- C8 witness: `s0dbg` (debug mode, empty in-memory tree) loading from
a malformed data file neither raises nor writes: state and file system
come back unchanged. -/
theorem C8_witness : onload s0dbg fsBad = Except.ok (s0dbg, fsBad) :=
  C8_debug_swallows s0dbg fsBad .nil .loadError rfl rfl rfl

/-- C10: if `onload` starts while the data field holds a plain dict or
list, that content is discarded: the slot the file load proceeds from is
a fresh loader whose inner data attribute is the loader object itself,
carrying no tree, and `onload` behaves exactly as if started from that
fixed slot. -/
theorem C10_dict_discarded (s : PluginState) (d : DataTree)
    (h : s.data = DataSlot.plainDict d ∨ s.data = DataSlot.plainList d) :
    (onload_pre s).data = DataSlot.loader ULInner.selfRef
    ∧ (∀ t : DataTree, (onload_pre s).data ≠ DataSlot.loader (ULInner.tree t))
    ∧ (∀ fs : FS, onload s fs = onload (onload_pre s) fs) := by
  have hin : onload_inner s = ULInner.selfRef := by
    rcases h with h | h <;> (unfold onload_inner; rw [h])
  refine ⟨?_, ?_, ?_⟩
  · unfold onload_pre
    rw [hin]
  · intro t
    unfold onload_pre
    rw [hin]
    simp
  · intro fs
    rcases h with h | h <;>
      · obtain ⟨nm, ver, stp, dep, dbg, fld, dat, fns, cfg⟩ := s
        simp only at h
        subst h
        rfl

/-- State `s0` with a plain dict left in the data field. -/
def sDict : PluginState := { s0 with data := .plainDict (.leaf "x") }

/-- C10 witness: starting `onload` on `sDict`, the load proceeds from a
loader whose inner data attribute is the loader itself. -/
theorem C10_witness :
    (onload_pre sDict).data = DataSlot.loader ULInner.selfRef :=
  (C10_dict_discarded sDict (.leaf "x") (Or.inl rfl)).1

/-- C2 (amended): for every plugin constructed outside debug mode whose
save format is recognized by the serialization engine, if `onload` finds
the persisted data file absent or malformed (including the empty file),
it does not raise: it truncates the file, re-saves the (empty) in-memory
tree and re-loads it, leaving the in-memory tree empty and the data file
holding the serialized empty tree.  (When the save format is
unrecognized the recovery save raises the same format error, see the
counterexample.) -/
theorem C2_recovers_empty (n v : Option String) (st : String)
    (deps : Option (List (String × String)))
    (fs fs1 fs2 : FS) (s : PluginState)
    (hc : construct n v st deps false fs = Except.ok (s, fs1))
    (hk : knownFormat st = true)
    (hfile : fs2.dataFile = none ∨ fs2.dataFile = some FileContent.malformed
             ∨ fs2.dataFile = some FileContent.emptyText) :
    onload s fs2
      = Except.ok (s, { fs2 with dataFile := some (FileContent.good DataTree.nil) }) := by
  have hshape := construct_ok_shape n v st deps false fs fs1 s hc
  subst hshape
  obtain ⟨we2, wd2, df2⟩ := fs2
  simp only at hfile
  unfold onload onload_pre onload_inner
  dsimp only
  rcases hfile with hf | hf | hf <;>
    (subst hf; simp [ULload, ULsave, hk])

/-- Like `s0` but first-load set, the state produced by constructing
"Echo" against an existing working directory with no data file yet. -/
def sJson : PluginState := { s0 with first_load := true }

/-- C2 witness: `sJson` (non-debug, "json" format) recovering from a
malformed data file ends with the empty in-memory tree and a data file
holding the serialized empty tree, without raising. -/
theorem C2_witness :
    onload sJson fsBad
      = Except.ok (sJson, { fsBad with dataFile := some (FileContent.good DataTree.nil) }) :=
  C2_recovers_empty (some "Echo") (some "1.0") "json" none fsAbsentD
    fsAbsentD fsBad sJson rfl rfl (Or.inr (Or.inl rfl))

/-- A plugin whose declared save format "xyz" is not recognized by the
serialization engine. -/
def sXyz : PluginState := { s0 with save_type := "xyz", first_load := true }

/-- C2 counterexample: the claim says a non-debug `onload` hitting an
unknown-format read failure does not raise, but the recovery path calls
`self.data.save()`, which raises the same unknown-format error, and that
exception escapes `onload`: for the constructed plugin `sXyz` with an
absent data file, `onload` raises instead of self-healing. -/
theorem C2_counterexample :
    construct (some "Echo") (some "1.0") "xyz" none false fsAbsentD
      = Except.ok (sXyz, fsAbsentD)
    ∧ sXyz.debug = false
    ∧ onload sXyz fsAbsentD
        = Except.error (PyError.persist PersistErr.fileTypeUnknown) :=
  ⟨rfl, rfl, rfl⟩
